import Mathlib

/-!
Verification development for the crypto-dot-com-exchange-go client library.

This file gives a shallow embedding, in Lean 4, of the request-signing and
error-classification core of the Go client:

* `internal/auth/auth.go` — `GenerateSignature`, `buildParamString`,
  `sortParams` (HMAC-SHA256 signing of a canonicalized payload);
* `internal/api/requester.go` — `CheckErrorResponse`;
* the errors package — `ResponseError`, the numeric response-code taxonomy
  and `NewResponseError`;
* `getorderhistory.go` / `getopenorders.go` — request validation and
  params-map construction of `GetOrderHistory` and `GetOpenOrders`.

Machine integers are modelled as `Nat`/`Int` with explicit reduction modulo
`2 ^ 32` where 32-bit overflow matters (inside SHA-256).  Go byte strings are
`List Nat` with every element below 256.  Fallible Go functions returning
`(T, error)` become `Except`/`Option` values.
-/

namespace CDCX

/-! ### Bytes and 32-bit words

SHA-256 and HMAC below are the Go standard library's `crypto/sha256` and
`crypto/hmac` (FIPS 180-4 / RFC 2104), which `GenerateSignature` calls.
Words are `Nat` reduced modulo `2 ^ 32`.
-/

/-- Reduction of a natural number to a 32-bit word. -/
def w32 (n : Nat) : Nat := n % 4294967296

/-- Addition modulo `2 ^ 32`. -/
def add32 (a b : Nat) : Nat := (a + b) % 4294967296

/-- Rotate a 32-bit word right by `n` bits. -/
def rotr32 (x n : Nat) : Nat := w32 ((x >>> n) ||| (x <<< (32 - n)))

/-- Bitwise complement within 32 bits. -/
def not32 (x : Nat) : Nat := 4294967295 ^^^ x

/-- FIPS 180-4 `Ch` function. -/
def ch32 (x y z : Nat) : Nat := (x &&& y) ^^^ (not32 x &&& z)

/-- FIPS 180-4 `Maj` function. -/
def maj32 (x y z : Nat) : Nat := (x &&& y) ^^^ (x &&& z) ^^^ (y &&& z)

/-- FIPS 180-4 `Σ₀`. -/
def bsig0 (x : Nat) : Nat := rotr32 x 2 ^^^ rotr32 x 13 ^^^ rotr32 x 22

/-- FIPS 180-4 `Σ₁`. -/
def bsig1 (x : Nat) : Nat := rotr32 x 6 ^^^ rotr32 x 11 ^^^ rotr32 x 25

/-- FIPS 180-4 `σ₀`. -/
def ssig0 (x : Nat) : Nat := rotr32 x 7 ^^^ rotr32 x 18 ^^^ (x >>> 3)

/-- FIPS 180-4 `σ₁`. -/
def ssig1 (x : Nat) : Nat := rotr32 x 17 ^^^ rotr32 x 19 ^^^ (x >>> 10)

/-- The eight 32-bit words of a SHA-256 chaining state. -/
structure Hash8 where
  h0 : Nat
  h1 : Nat
  h2 : Nat
  h3 : Nat
  h4 : Nat
  h5 : Nat
  h6 : Nat
  h7 : Nat
deriving Repr, DecidableEq

/-- Initial SHA-256 hash value (FIPS 180-4 §5.3.3), written in decimal. -/
def initH : Hash8 :=
  ⟨1779033703, 3144134277, 1013904242, 2773480762,
   1359893119, 2600822924, 528734635, 1541459225⟩

/-- The 64 SHA-256 round constants (FIPS 180-4 §4.2.2), written in
decimal. -/
def K64 : List Nat :=
  [1116352408, 1899447441, 3049323471, 3921009573, 961987163,
   1508970993, 2453635748, 2870763221, 3624381080, 310598401,
   607225278, 1426881987, 1925078388, 2162078206, 2614888103,
   3248222580, 3835390401, 4022224774, 264347078, 604807628,
   770255983, 1249150122, 1555081692, 1996064986, 2554220882,
   2821834349, 2952996808, 3210313671, 3336571891, 3584528711,
   113926993, 338241895, 666307205, 773529912, 1294757372,
   1396182291, 1695183700, 1986661051, 2177026350, 2456956037,
   2730485921, 2820302411, 3259730800, 3345764771, 3516065817,
   3600352804, 4094571909, 275423344, 430227734, 506948616,
   659060556, 883997877, 958139571, 1322822218, 1537002063,
   1747873779, 1955562222, 2024104815, 2227730452, 2361852424,
   2428436474, 2756734187, 3204031479, 3329325298]

/-- One step of the SHA-256 message-schedule extension: appends
`σ₁(W[t-2]) + W[t-7] + σ₀(W[t-15]) + W[t-16]` to the schedule so far. -/
def scheduleStep (w : List Nat) : List Nat :=
  let t := w.length
  w ++ [add32 (add32 (ssig1 (w.getD (t - 2) 0)) (w.getD (t - 7) 0))
          (add32 (ssig0 (w.getD (t - 15) 0)) (w.getD (t - 16) 0))]

/-- Extends a 16-word block to the 64-word SHA-256 message schedule. -/
def schedule (block : List Nat) : List Nat :=
  (List.range 48).foldl (fun w _ => scheduleStep w) block

/-- One SHA-256 round: consumes a pair (round constant, schedule word). -/
def sha256Round (st : Hash8) (kw : Nat × Nat) : Hash8 :=
  let t1 := add32 st.h7 (add32 (bsig1 st.h4)
    (add32 (ch32 st.h4 st.h5 st.h6) (add32 kw.1 kw.2)))
  let t2 := add32 (bsig0 st.h0) (maj32 st.h0 st.h1 st.h2)
  ⟨add32 t1 t2, st.h0, st.h1, st.h2, add32 st.h3 t1, st.h4, st.h5, st.h6⟩

/-- The SHA-256 compression function on one 16-word block. -/
def sha256Compress (st : Hash8) (block : List Nat) : Hash8 :=
  let f := (K64.zip (schedule block)).foldl sha256Round st
  ⟨add32 st.h0 f.h0, add32 st.h1 f.h1, add32 st.h2 f.h2, add32 st.h3 f.h3,
   add32 st.h4 f.h4, add32 st.h5 f.h5, add32 st.h6 f.h6, add32 st.h7 f.h7⟩

/-- Big-endian 8-byte encoding of a message bit length. -/
def lenBytes64 (n : Nat) : List Nat :=
  [n >>> 56 % 256, n >>> 48 % 256, n >>> 40 % 256, n >>> 32 % 256,
   n >>> 24 % 256, n >>> 16 % 256, n >>> 8 % 256, n % 256]

/-- SHA-256 message padding: append `0x80`, zeros, then the 64-bit
big-endian bit length, reaching a multiple of 64 bytes. -/
def padMessage (msg : List Nat) : List Nat :=
  msg ++ 0x80 :: List.replicate ((64 - (msg.length + 9) % 64) % 64) 0
      ++ lenBytes64 (msg.length * 8)

/-- Grouping of a byte list into big-endian 32-bit words. -/
def bytesToWords : List Nat → List Nat
  | b0 :: b1 :: b2 :: b3 :: rest =>
      (((b0 * 256 + b1) * 256 + b2) * 256 + b3) :: bytesToWords rest
  | _ => []

/-- Grouping of a word list into 16-word blocks. -/
def wordBlocks (ws : List Nat) : List (List Nat) :=
  if h : ws = [] then []
  else ws.take 16 :: wordBlocks (ws.drop 16)
termination_by ws.length
decreasing_by
  simp only [List.length_drop]
  exact Nat.sub_lt (List.length_pos.mpr h) (by decide)

/-- Big-endian 4-byte serialization of one 32-bit word. -/
def word4 (w : Nat) : List Nat := [w >>> 24 % 256, w >>> 16 % 256, w >>> 8 % 256, w % 256]

/-- Big-endian serialization of a chaining state into 32 digest bytes. -/
def hash8Bytes (h : Hash8) : List Nat :=
  word4 h.h0 ++ word4 h.h1 ++ word4 h.h2 ++ word4 h.h3 ++
  word4 h.h4 ++ word4 h.h5 ++ word4 h.h6 ++ word4 h.h7

/-- SHA-256 of a byte string (Go `crypto/sha256.Sum256`). -/
def sha256 (msg : List Nat) : List Nat :=
  hash8Bytes ((wordBlocks (bytesToWords (padMessage msg))).foldl sha256Compress initH)

/-- HMAC-SHA256 (Go `crypto/hmac` with `sha256.New`): keys longer than the
64-byte block size are hashed first, the key is zero-padded to 64 bytes,
and the digest is `H((k ⊕ opad) ∥ H((k ⊕ ipad) ∥ msg))`. -/
def hmacSha256 (key msg : List Nat) : List Nat :=
  let k := if 64 < key.length then sha256 key else key
  let k0 := k ++ List.replicate (64 - k.length) 0
  let inner := sha256 ((k0.map fun b => b ^^^ 0x36) ++ msg)
  sha256 ((k0.map fun b => b ^^^ 0x5c) ++ inner)

/-- The sixteen lowercase hexadecimal digit characters, in value order
(Go `encoding/hex` draws digits from the constant `"0123456789abcdef"`). -/
def hexChars : List Char := "0123456789abcdef".data

/-- Two lowercase hex characters for one byte (Go `encoding/hex`). -/
def hexByte (b : Nat) : List Char :=
  [hexChars.getD (b / 16) '0', hexChars.getD (b % 16) '0']

/-- Lowercase hexadecimal encoding of a byte string
(Go `hex.EncodeToString`). -/
def hexEncode (bytes : List Nat) : String :=
  String.mk (bytes.map hexByte).flatten

/-- UTF-8 encoding of one character, as Go's `[]byte(string)` produces. -/
def utf8Char (c : Char) : List Nat :=
  let n := c.toNat
  if n < 128 then [n]
  else if n < 2048 then [192 + n / 64, 128 + n % 64]
  else if n < 65536 then [224 + n / 4096, 128 + n / 64 % 64, 128 + n % 64]
  else [240 + n / 262144, 128 + n / 4096 % 64, 128 + n / 64 % 64, 128 + n % 64]

/-- UTF-8 bytes of a string (Go `[]byte(s)`). -/
def strBytes (s : String) : List Nat :=
  (s.data.map utf8Char).flatten

/-! ### Signature generation (`internal/auth/auth.go`)

Go's `map[string]interface{}` of request parameters is modelled as an
association list of keys and values; a Go map has unique keys, which appears
below as a `Nodup` hypothesis on the mapped keys where it matters.  The
`interface{}` values that the repository stores in params maps are strings,
integers and booleans; `%v` formatting of each is mirrored by
`PValue.render`.
-/

/-- A parameter value as stored in the Go params map. -/
inductive PValue where
  | str (s : String)
  | int (n : Int)
  | bool (b : Bool)
deriving Repr, DecidableEq

/-- Go `fmt.Sprintf` `%v` rendering of a parameter value: strings verbatim,
integers in decimal, booleans as `true`/`false`. -/
def PValue.render : PValue → String
  | .str s => s
  | .int n => toString n
  | .bool b => if b then "true" else "false"

/-- A params map, as an association list of key-value pairs. -/
def Params : Type := List (String × PValue)

instance : DecidableEq Params := by
  unfold Params
  infer_instance

/-- Key order used by `sortParams` (Go `sort.Slice` with
`p[i].key < p[j].key`): ascending byte-wise lexicographic key order.  The
non-strict form is used so that the sort's specification lemmas apply; on
the duplicate-free key sets of a Go map it orders pairs exactly as the
strict comparison does. -/
def keyLE (p q : String × PValue) : Prop := p.1 ≤ q.1

instance : DecidableRel keyLE := fun p q => by
  unfold keyLE
  infer_instance

/-- Mirror of `Generator.sortParams`: the key-value pairs sorted by
ascending key. -/
def sortParams (params : Params) : Params :=
  List.insertionSort keyLE params

/-- Mirror of `Generator.buildParamString`: empty maps yield the empty
string, otherwise each sorted key is concatenated immediately with its
rendered value, with no separators. -/
def buildParamString (params : Params) : String :=
  if (params : List (String × PValue)).length = 0 then ""
  else (sortParams params).foldl (fun acc p => acc ++ p.1 ++ p.2.render) ""

/-- Mirror of `auth.SignatureRequest`. -/
structure SignatureRequest where
  APIKey : String
  SecretKey : String
  ID : Int
  Method : String
  Timestamp : Int
  Params : Params

/-- The signing payload, as built by `fmt.Sprintf` format
`%s%d%s%s%d` in `Generator.GenerateSignature`. -/
def signaturePayload (req : SignatureRequest) : String :=
  req.Method ++ toString req.ID ++ req.APIKey ++
    buildParamString req.Params ++ toString req.Timestamp

/-- Model of `hash.Hash.Write` on the in-memory HMAC state.  Go's `hash`
package documents that `Write` never returns an error, so the model always
succeeds while keeping the result in `Except` to preserve the shape of the
Go error branch. -/
def hashWrite (data : List Nat) : Except String (List Nat) :=
  Except.ok data

/-- Mirror of `Generator.GenerateSignature`: writes the UTF-8 payload bytes
into an HMAC-SHA256 keyed by the secret key and hex-encodes the MAC. -/
def GenerateSignature (req : SignatureRequest) : Except String String :=
  match hashWrite (strBytes (signaturePayload req)) with
  | Except.error e => Except.error ("failed to write signature: " ++ e)
  | Except.ok data => Except.ok (hexEncode (hmacSha256 (strBytes req.SecretKey) data))

/-! ### Error classification (errors package and `internal/api/requester.go`)

The repository's errors package declares one sentinel error value per
exchange response code (`errors.go`, mirrored from the in-repo
`newResponseError` switch) plus a catch-all `ErrUnexpectedError`.
-/

/-- One constructor per sentinel error value of the errors package. -/
inductive Sentinel where
  | unexpectedError
  | systemError
  | unauthorized
  | illegalIP
  | badRequest
  | userTierInvalid
  | tooManyRequests
  | invalidNonce
  | methodNotFound
  | invalidDateRange
  | duplicateRecord
  | negativeBalance
  | symbolNotFound
  | sideNotSupported
  | orderTypeNotSupported
  | minPriceViolated
  | maxPriceViolated
  | minQuantityViolated
  | maxQuantityViolated
  | missingArgument
  | invalidPricePrecision
  | invalidQuantityPrecision
  | minNotionalViolated
  | maxNotionalViolated
  | minAmountViolated
  | maxAmountViolated
  | amountPrecisionOverflow
  | mgInvalidAccountStatus
  | mgTransferActiveLoan
  | mgInvalidLoanCurrency
  | mgInvalidRepayAmount
  | mgNoActiveLoan
  | mgBlockedBorrow
  | mgBlockedNewOrder
  | mgCreditLineNotMaintained
deriving Repr, DecidableEq

/-- A Go `error` value as used inside `ResponseError`: either one of the
fixed sentinels, or an ad-hoc message error built with `fmt.Errorf`. -/
inductive GoErr where
  | sentinel (s : Sentinel)
  | message (msg : String)
deriving Repr, DecidableEq

/-- Modelled from the spec: the errors package's `ResponseError` struct
(its source file is not under `src/`; only its test, its callers and an
earlier in-package revision without the HTTP status field are).  Per the
spec's data model it carries the exchange's raw numeric reason code, the
transport status code observed, and the underlying sentinel, and both the
package's test and `requester.go` construct it with exactly these three
fields. -/
structure ResponseError where
  Code : Int := 0
  HTTPStatusCode : Int := 0
  Err : GoErr
deriving Repr, DecidableEq

/-- Mirror of `ResponseError.Unwrap`: exposes the underlying error, so
`errors.Is` can match a `ResponseError` against a bare sentinel. -/
def ResponseError.Unwrap (re : ResponseError) : GoErr := re.Err

/-- The `case` arms of the `newResponseError` switch, in source order: the
codes listed by each `case` clause paired with the sentinel that arm
assigns.  A Go `switch` selects the first (here: only) arm whose case list
contains the scrutinee. -/
def switchCases : List (List Int × Sentinel) :=
  [([10001, 100001], .systemError),
   ([10002], .unauthorized),
   ([10003], .illegalIP),
   ([10004], .badRequest),
   ([10005], .userTierInvalid),
   ([10006], .tooManyRequests),
   ([10007], .invalidNonce),
   ([10008], .methodNotFound),
   ([10009], .invalidDateRange),
   ([20001], .duplicateRecord),
   ([20002], .negativeBalance),
   ([30003], .symbolNotFound),
   ([30004], .sideNotSupported),
   ([30005], .orderTypeNotSupported),
   ([30006], .minPriceViolated),
   ([30007], .maxPriceViolated),
   ([30008], .minQuantityViolated),
   ([30009], .maxQuantityViolated),
   ([30010], .missingArgument),
   ([30013], .invalidPricePrecision),
   ([30014], .invalidQuantityPrecision),
   ([30016], .minNotionalViolated),
   ([30017], .maxNotionalViolated),
   ([30023], .minAmountViolated),
   ([30024], .maxAmountViolated),
   ([30025], .amountPrecisionOverflow),
   ([40001], .mgInvalidAccountStatus),
   ([40002], .mgTransferActiveLoan),
   ([40003], .mgInvalidLoanCurrency),
   ([40004], .mgInvalidRepayAmount),
   ([40005], .mgNoActiveLoan),
   ([40006], .mgBlockedBorrow),
   ([40007], .mgBlockedNewOrder),
   ([50001], .mgCreditLineNotMaintained)]

/-- The response-code taxonomy switch of `newResponseError`: the first arm
whose case list contains the code determines the sentinel, and the
`default` branch gives the catch-all sentinel. -/
def taxonomySentinel (code : Int) : Sentinel :=
  match switchCases.find? (fun cs => decide (code ∈ cs.1)) with
  | some cs => cs.2
  | none => Sentinel.unexpectedError

/-- Modelled from the spec: the errors package's exported
`NewResponseError(httpStatusCode, code)` (its source file is not under
`src/`).  The taxonomy switch and the `code 0 → nil` success case are taken
from the in-repo `newResponseError` revision; the spec §4.2 and the
package's test fix the two-argument form, which threads the observed HTTP
status into the constructed `ResponseError`.  A `none` result models a
`nil` Go error. -/
def NewResponseError (httpStatusCode : Int) (code : Int) : Option ResponseError :=
  if code = 0 then none
  else some { Code := code, HTTPStatusCode := httpStatusCode,
              Err := GoErr.sentinel (taxonomySentinel code) }

/-- Model of `json.Number.Int64`, which is
`strconv.ParseInt(string(n), 10, 64)`: an optional single sign followed by
at least one decimal digit, rejected when the value does not fit a 64-bit
two's-complement integer. -/
def parseInt64 (s : String) : Option Int :=
  let signed :=
    match s.data with
    | [] => none
    | c :: rest =>
      if c = '-' then some (true, rest)
      else if c = '+' then some (false, rest)
      else some (false, c :: rest)
  match signed with
  | none => none
  | some (neg, digits) =>
    if digits = [] then none
    else if digits.all Char.isDigit then
      let v : Nat := digits.foldl (fun acc d => acc * 10 + (d.toNat - 48)) 0
      if neg then
        if v ≤ 9223372036854775808 then some (-(v : Int)) else none
      else
        if v ≤ 9223372036854775807 then some (v : Int) else none
    else none

/-- Mirror of `Requester.CheckErrorResponse`: statuses below 400 are
success; otherwise the response code is parsed and either reported as a
parse-failure `ResponseError` (code left at its zero value) or classified
through `NewResponseError`.  A `none` result models a `nil` Go error. -/
def CheckErrorResponse (statusCode : Int) (responseCode : String) : Option ResponseError :=
  if 400 ≤ statusCode then
    match parseInt64 responseCode with
    | none => some { Code := 0, HTTPStatusCode := statusCode,
                     Err := GoErr.message ("invalid response code: " ++ responseCode) }
    | some code => NewResponseError statusCode code
  else none

/-! ### The taxonomy table, as written in the spec

The spec §4.2 lists the classifier's code → sentinel table row by row.  The
list below transcribes that table (expanding the grouped rows such as
`30006/30007` and `40001..40007`); the theorems compare it against the
`taxonomySentinel` switch translated from the code.
-/

/-- The code → sentinel table of spec §4.2, one entry per code. -/
def specTaxonomy : List (Int × Sentinel) :=
  [(10001, .systemError), (100001, .systemError),
   (10002, .unauthorized),
   (10003, .illegalIP),
   (10004, .badRequest),
   (10005, .userTierInvalid),
   (10006, .tooManyRequests),
   (10007, .invalidNonce),
   (10008, .methodNotFound),
   (10009, .invalidDateRange),
   (20001, .duplicateRecord),
   (20002, .negativeBalance),
   (30003, .symbolNotFound),
   (30004, .sideNotSupported),
   (30005, .orderTypeNotSupported),
   (30006, .minPriceViolated), (30007, .maxPriceViolated),
   (30008, .minQuantityViolated), (30009, .maxQuantityViolated),
   (30010, .missingArgument),
   (30013, .invalidPricePrecision), (30014, .invalidQuantityPrecision),
   (30016, .minNotionalViolated), (30017, .maxNotionalViolated),
   (30023, .minAmountViolated), (30024, .maxAmountViolated),
   (30025, .amountPrecisionOverflow),
   (40001, .mgInvalidAccountStatus),
   (40002, .mgTransferActiveLoan),
   (40003, .mgInvalidLoanCurrency),
   (40004, .mgInvalidRepayAmount),
   (40005, .mgNoActiveLoan),
   (40006, .mgBlockedBorrow),
   (40007, .mgBlockedNewOrder),
   (50001, .mgCreditLineNotMaintained)]

/-- The codes appearing in the spec §4.2 table. -/
def taxonomyCodes : List Int :=
  [10001, 100001, 10002, 10003, 10004, 10005, 10006, 10007, 10008, 10009,
   20001, 20002, 30003, 30004, 30005, 30006, 30007, 30008, 30009, 30010,
   30013, 30014, 30016, 30017, 30023, 30024, 30025,
   40001, 40002, 40003, 40004, 40005, 40006, 40007, 50001]

/-! ### Endpoint operations (`getorderhistory.go`, `getopenorders.go`)

The two operations are modelled up to the point at which they hand the
assembled request body to the HTTP dispatcher: the network round trip and
response decoding are outside the core.  The id generator and the clock are
external collaborators, so the fresh id and the current millisecond
timestamp are explicit arguments; validation failing for every choice of
those arguments is how "before any id/clock use or network dispatch"
renders in this embedding.
-/

/-- Abstraction of Go `time.Time` by the two observations the modelled code
makes of it: `IsZero` and `UnixMilli`. -/
structure GoTime where
  unixMilli : Int
  isZero : Bool
deriving Repr, DecidableEq

/-- Mirror of `errors.InvalidParameterError`. -/
structure InvalidParameterError where
  Parameter : String
  Reason : String
deriving Repr, DecidableEq

/-- The failures a modelled endpoint operation can return before
dispatching: parameter validation and signature generation. -/
inductive ClientError where
  | invalidParameter (e : InvalidParameterError)
  | signatureError (msg : String)
deriving Repr, DecidableEq

/-- Mirror of `api.Request`, the outbound signed request body. -/
structure ApiRequest where
  ID : Int
  Method : String
  Nonce : Int
  Params : Params
  Signature : String
  APIKey : String

/-- Wire method of `GetOrderHistory`. -/
def methodGetOrderHistory : String := "private/get-order-history"

/-- Wire method of `GetOpenOrders`. -/
def methodGetOpenOrders : String := "private/get-open-orders"

/-- Mirror of `GetOrderHistoryRequest`. -/
structure GetOrderHistoryRequest where
  InstrumentName : String
  Start : GoTime
  End : GoTime
  PageSize : Int
  Page : Int
deriving Repr, DecidableEq

/-- Mirror of `GetOpenOrdersRequest`. -/
structure GetOpenOrdersRequest where
  InstrumentName : String
  PageSize : Int
  Page : Int
deriving Repr, DecidableEq

/-- The params map that `GetOrderHistory` builds, in insertion order:
`instrument_name`, `page_size`, `start_ts` and `end_ts` only when their
request fields are non-zero-valued, and `page` unconditionally. -/
def getOrderHistoryParams (req : GetOrderHistoryRequest) : Params :=
  (if req.InstrumentName ≠ "" then [("instrument_name", PValue.str req.InstrumentName)] else [])
  ++ (if req.PageSize ≠ 0 then [("page_size", PValue.int req.PageSize)] else [])
  ++ (if req.Start.isZero = false then [("start_ts", PValue.int req.Start.unixMilli)] else [])
  ++ (if req.End.isZero = false then [("end_ts", PValue.int req.End.unixMilli)] else [])
  ++ [("page", PValue.int req.Page)]

/-- The params map that `GetOpenOrders` builds, in insertion order. -/
def getOpenOrdersParams (req : GetOpenOrdersRequest) : Params :=
  (if req.InstrumentName ≠ "" then [("instrument_name", PValue.str req.InstrumentName)] else [])
  ++ (if req.PageSize ≠ 0 then [("page_size", PValue.int req.PageSize)] else [])
  ++ [("page", PValue.int req.Page)]

/-- Mirror of `client.GetOrderHistory` up to the assembled request body:
page-size validation, params construction, signing, body assembly. -/
def GetOrderHistory (req : GetOrderHistoryRequest) (id nowMilli : Int)
    (apiKey secretKey : String) : Except ClientError ApiRequest :=
  if req.PageSize < 0 then
    Except.error (ClientError.invalidParameter ⟨"req.PageSize", "cannot be less than 0"⟩)
  else if 200 < req.PageSize then
    Except.error (ClientError.invalidParameter ⟨"req.PageSize", "cannot be greater than 200"⟩)
  else
    let params := getOrderHistoryParams req
    match GenerateSignature ⟨apiKey, secretKey, id, methodGetOrderHistory, nowMilli, params⟩ with
    | Except.error e => Except.error (ClientError.signatureError ("failed to create signature: " ++ e))
    | Except.ok signature =>
        Except.ok ⟨id, methodGetOrderHistory, nowMilli, params, signature, apiKey⟩

/-- Mirror of `client.GetOpenOrders` up to the assembled request body. -/
def GetOpenOrders (req : GetOpenOrdersRequest) (id nowMilli : Int)
    (apiKey secretKey : String) : Except ClientError ApiRequest :=
  if req.PageSize < 0 then
    Except.error (ClientError.invalidParameter ⟨"req.PageSize", "cannot be less than 0"⟩)
  else if 200 < req.PageSize then
    Except.error (ClientError.invalidParameter ⟨"req.PageSize", "cannot be greater than 200"⟩)
  else
    let params := getOpenOrdersParams req
    match GenerateSignature ⟨apiKey, secretKey, id, methodGetOpenOrders, nowMilli, params⟩ with
    | Except.error e => Except.error (ClientError.signatureError ("failed to create signature: " ++ e))
    | Except.ok signature =>
        Except.ok ⟨id, methodGetOpenOrders, nowMilli, params, signature, apiKey⟩

/-! ### Helper lemmas -/

theorem generateSignature_ok (req : SignatureRequest) :
    GenerateSignature req =
      Except.ok (hexEncode (hmacSha256 (strBytes req.SecretKey)
        (strBytes (signaturePayload req)))) := rfl

theorem sha256_length (msg : List Nat) : (sha256 msg).length = 32 := rfl

theorem hmacSha256_length (key msg : List Nat) : (hmacSha256 key msg).length = 32 := by
  unfold hmacSha256
  exact sha256_length _

theorem hash8Bytes_lt (h : Hash8) : ∀ b ∈ hash8Bytes h, b < 256 := by
  intro b hb
  simp only [hash8Bytes, word4, List.mem_append, List.mem_cons,
    List.not_mem_nil, or_false] at hb
  omega

theorem sha256_bytes_lt (msg : List Nat) : ∀ b ∈ sha256 msg, b < 256 := by
  unfold sha256
  exact hash8Bytes_lt _

theorem hmacSha256_bytes_lt (key msg : List Nat) : ∀ b ∈ hmacSha256 key msg, b < 256 := by
  unfold hmacSha256
  exact sha256_bytes_lt _

theorem hexPairs_length (bs : List Nat) : ((bs.map hexByte).flatten).length = 2 * bs.length := by
  induction bs with
  | nil => rfl
  | cons b bs ih =>
      simp only [List.map_cons, List.flatten_cons, List.length_append,
        List.length_cons, ih, hexByte, List.length_nil]
      omega

theorem hexEncode_length (bs : List Nat) : (hexEncode bs).length = 2 * bs.length := by
  simp only [hexEncode, String.length]
  exact hexPairs_length bs

theorem hexByte_chars (b : Nat) (hb : b < 256) : ∀ c ∈ hexByte b, c ∈ hexChars := by
  have h16 : ∀ n < 16, hexChars.getD n '0' ∈ hexChars := by decide
  intro c hc
  simp only [hexByte, List.mem_cons, List.not_mem_nil, or_false] at hc
  rcases hc with rfl | rfl
  · exact h16 _ (by omega)
  · exact h16 _ (Nat.mod_lt _ (by norm_num))

theorem hexEncode_chars (bs : List Nat) (hbs : ∀ b ∈ bs, b < 256) :
    ∀ c ∈ (hexEncode bs).data, c ∈ hexChars := by
  intro c hc
  simp only [hexEncode, List.mem_flatten, List.mem_map] at hc
  obtain ⟨l, ⟨b, hb, rfl⟩, hcl⟩ := hc
  exact hexByte_chars b (hbs b hb) c hcl

theorem sortParams_eq_of_perm (p₁ p₂ : Params) (hperm : List.Perm p₁ p₂)
    (hnd : ((p₁ : List (String × PValue)).map Prod.fst).Nodup) :
    sortParams p₁ = sortParams p₂ := by
  haveI instTot : IsTotal (String × PValue) keyLE := ⟨fun a b => le_total a.1 b.1⟩
  haveI instTrans : IsTrans (String × PValue) keyLE := ⟨fun a b c hab hbc => le_trans hab hbc⟩
  haveI instAnti : IsAntisymm (String × PValue) (fun a b => a.1 < b.1) :=
    ⟨fun _ _ h1 h2 => (lt_asymm h1 h2).elim⟩
  have hp : List.Perm (sortParams p₁) (sortParams p₂) :=
    ((List.perm_insertionSort keyLE p₁).trans hperm).trans
      (List.perm_insertionSort keyLE p₂).symm
  have hnd₁ : ((sortParams p₁).map Prod.fst).Nodup :=
    (((List.perm_insertionSort keyLE p₁).map Prod.fst).nodup_iff).mpr hnd
  have hnd₂ : ((sortParams p₂).map Prod.fst).Nodup := by
    refine (((List.perm_insertionSort keyLE p₂).map Prod.fst).nodup_iff).mpr ?_
    exact ((hperm.map Prod.fst).nodup_iff).mp hnd
  have hlt₁ : (sortParams p₁).Pairwise (fun a b => a.1 < b.1) :=
    ((List.sorted_insertionSort keyLE p₁).and (List.pairwise_map.mp hnd₁)).imp
      (fun hab => lt_of_le_of_ne hab.1 hab.2)
  have hlt₂ : (sortParams p₂).Pairwise (fun a b => a.1 < b.1) :=
    ((List.sorted_insertionSort keyLE p₂).and (List.pairwise_map.mp hnd₂)).imp
      (fun hab => lt_of_le_of_ne hab.1 hab.2)
  exact List.eq_of_perm_of_sorted hp hlt₁ hlt₂

theorem buildParamString_eq_of_perm (p₁ p₂ : Params) (hperm : List.Perm p₁ p₂)
    (hnd : ((p₁ : List (String × PValue)).map Prod.fst).Nodup) :
    buildParamString p₁ = buildParamString p₂ := by
  unfold buildParamString
  rw [hperm.length_eq, sortParams_eq_of_perm p₁ p₂ hperm hnd]

/-! ### Claim theorems -/

/-- C1: for every `SignatureRequest` (including one with an empty params
map), `GenerateSignature` returns the lowercase hex encoding of HMAC-SHA256
keyed by the secret key over the concatenation, with no separators, of the
method, the decimal id, the API key, the key-sorted key-value concatenation
of the params, and the decimal timestamp; and the spec's concrete example
request yields
`hex(HMAC-SHA256("s", "private/get-account-summary1234kcurrencyCRO1700000000000"))`. -/
theorem c1_payload_construction :
    (∀ req : SignatureRequest,
      GenerateSignature req = Except.ok (hexEncode (hmacSha256 (strBytes req.SecretKey)
        (strBytes (req.Method ++ toString req.ID ++ req.APIKey ++
          buildParamString req.Params ++ toString req.Timestamp))))) ∧
    GenerateSignature ⟨"k", "s", 1234, "private/get-account-summary", 1700000000000,
        [("currency", PValue.str "CRO")]⟩ =
      Except.ok (hexEncode (hmacSha256 (strBytes "s")
        (strBytes "private/get-account-summary1234kcurrencyCRO1700000000000"))) := by
  refine ⟨fun req => rfl, ?_⟩
  have hp : signaturePayload ⟨"k", "s", 1234, "private/get-account-summary", 1700000000000,
      [("currency", PValue.str "CRO")]⟩ =
      "private/get-account-summary1234kcurrencyCRO1700000000000" := by decide
  rw [generateSignature_ok, hp]

/-- Witness for C1 at an empty params map: the canonicalized param string
contributes zero bytes to the payload. -/
theorem c1_witness :
    GenerateSignature ⟨"", "", 0, "", 0, []⟩ =
      Except.ok (hexEncode (hmacSha256 (strBytes "")
        (strBytes ("" ++ toString (0 : Int) ++ "" ++
          buildParamString [] ++ toString (0 : Int))))) :=
  c1_payload_construction.1 ⟨"", "", 0, "", 0, []⟩

/-- C9: for every input `SignatureRequest`, `GenerateSignature` returns a
successful (nil-error) result carrying a string of exactly 64 lowercase
hexadecimal characters; the error branch guarding the hash write is
unreachable because `hashWrite` (Go `hash.Hash.Write` on the in-memory
HMAC state) never fails. -/
theorem c9_signature_is_64_lowercase_hex :
    ∀ req : SignatureRequest, ∃ s : String,
      GenerateSignature req = Except.ok s ∧ s.length = 64 ∧
      ∀ c ∈ s.data, c ∈ hexChars := by
  intro req
  refine ⟨_, generateSignature_ok req, ?_, ?_⟩
  · rw [hexEncode_length, hmacSha256_length]
  · exact hexEncode_chars _ (hmacSha256_bytes_lt _ _)

/-- Witness for C9 at a concrete request. -/
theorem c9_witness :
    ∃ s : String,
      GenerateSignature ⟨"k", "s", 1234, "m", 1, []⟩ = Except.ok s ∧
      s.length = 64 ∧ ∀ c ∈ s.data, c ∈ hexChars :=
  c9_signature_is_64_lowercase_hex ⟨"k", "s", 1234, "m", 1, []⟩

/-- C4: two params maps holding exactly the same key-value pairs but built
in different insertion orders (modelled as association lists that are
permutations of one another, with the duplicate-free keys every Go map has)
yield identical signatures, because canonicalization sorts the keys before
concatenation. -/
theorem c4_param_order_independence :
    ∀ (p₁ p₂ : Params), List.Perm p₁ p₂ →
    ((p₁ : List (String × PValue)).map Prod.fst).Nodup →
    ∀ (apiKey secretKey method : String) (id ts : Int),
      GenerateSignature ⟨apiKey, secretKey, id, method, ts, p₁⟩ =
      GenerateSignature ⟨apiKey, secretKey, id, method, ts, p₂⟩ := by
  intro p₁ p₂ hperm hnd apiKey secretKey method id ts
  rw [generateSignature_ok, generateSignature_ok]
  simp only [signaturePayload]
  rw [buildParamString_eq_of_perm p₁ p₂ hperm hnd]

/-- Witness for C4 at a concrete pair of two-entry maps differing only in
insertion order. -/
theorem c4_witness :
    GenerateSignature ⟨"k", "s", 1, "m", 2,
      [("b", PValue.str "2"), ("a", PValue.str "1")]⟩ =
    GenerateSignature ⟨"k", "s", 1, "m", 2,
      [("a", PValue.str "1"), ("b", PValue.str "2")]⟩ :=
  c4_param_order_independence _ _ (by decide) (by decide) "k" "s" "m" 1 2

/-! ### Classifier helper lemmas -/

theorem taxonomy_sentinel_agrees : ∀ p ∈ specTaxonomy, taxonomySentinel p.1 = p.2 := by
  decide

theorem taxonomy_codes_nonzero : ∀ p ∈ specTaxonomy, p.1 ≠ 0 := by
  decide

theorem taxonomyCodes_are_table_codes : taxonomyCodes = specTaxonomy.map Prod.fst := by
  decide

theorem taxonomySentinel_unexpected (code : Int) (h : code ∉ taxonomyCodes) :
    taxonomySentinel code = Sentinel.unexpectedError := by
  have hall : ∀ cs ∈ switchCases, ∀ c ∈ cs.1, c ∈ taxonomyCodes := by decide
  have hfind : switchCases.find? (fun cs => decide (code ∈ cs.1)) = none := by
    refine List.find?_eq_none.mpr fun cs hcs hdec => ?_
    exact h (hall cs hcs code (of_decide_eq_true hdec))
  simp [taxonomySentinel, hfind]

theorem checkErrorResponse_parsed (status code : Int) (s : String)
    (hst : 400 ≤ status) (hparse : parseInt64 s = some code) :
    CheckErrorResponse status s = NewResponseError status code := by
  simp [CheckErrorResponse, hst, hparse]

theorem checkErrorResponse_taxonomy (status code : Int) (sent : Sentinel) (s : String)
    (hst : 400 ≤ status) (hmem : (code, sent) ∈ specTaxonomy)
    (hparse : parseInt64 s = some code) :
    CheckErrorResponse status s = some ⟨code, status, GoErr.sentinel sent⟩ := by
  rw [checkErrorResponse_parsed status code s hst hparse]
  unfold NewResponseError
  rw [if_neg (taxonomy_codes_nonzero (code, sent) hmem),
    taxonomy_sentinel_agrees (code, sent) hmem]

/-- C2: for every HTTP status of at least 400 and every response code that
parses to an integer in the spec §4.2 table, `CheckErrorResponse` returns a
`ResponseError` whose sentinel is the table's sentinel for that code and
whose `Code` field equals the input code; every other nonzero parsed code
yields the catch-all unexpected-error sentinel, so classification never
fails for any integer code. -/
theorem c2_taxonomy_completeness :
    ∀ (status : Int), 400 ≤ status →
    ∀ (s : String) (code : Int), parseInt64 s = some code →
      (∀ sent : Sentinel, (code, sent) ∈ specTaxonomy →
        CheckErrorResponse status s = some ⟨code, status, GoErr.sentinel sent⟩) ∧
      (code ∉ taxonomyCodes → code ≠ 0 →
        CheckErrorResponse status s =
          some ⟨code, status, GoErr.sentinel Sentinel.unexpectedError⟩) := by
  intro status hst s code hparse
  constructor
  · intro sent hmem
    exact checkErrorResponse_taxonomy status code sent s hst hmem hparse
  · intro hnot h0
    rw [checkErrorResponse_parsed status code s hst hparse]
    unfold NewResponseError
    rw [if_neg h0, taxonomySentinel_unexpected code hnot]

/-- Witness for C2: the table code 10002 classifies to the unauthorized
sentinel at status 400, and the unlisted code 99 classifies to the
catch-all at status 500. -/
theorem c2_witness :
    CheckErrorResponse 400 "10002" =
      some ⟨10002, 400, GoErr.sentinel Sentinel.unauthorized⟩ ∧
    CheckErrorResponse 500 "99" =
      some ⟨99, 500, GoErr.sentinel Sentinel.unexpectedError⟩ :=
  ⟨(c2_taxonomy_completeness 400 (by decide) "10002" 10002 (by decide)).1
      Sentinel.unauthorized (by decide),
   (c2_taxonomy_completeness 500 (by decide) "99" 99 (by decide)).2
      (by decide) (by decide)⟩

/-- C3: `CheckErrorResponse` returns nil exactly when the HTTP status is
below 400 or the response code parses as the integer 0 — two independent
sufficient success conditions; every other combination returns a non-nil
error. -/
theorem c3_nil_iff :
    ∀ (status : Int) (s : String),
      CheckErrorResponse status s = none ↔
        (status < 400 ∨ parseInt64 s = some 0) := by
  intro status s
  by_cases hst : 400 ≤ status
  · have hlt : ¬ status < 400 := not_lt.mpr hst
    simp only [CheckErrorResponse, if_pos hst]
    cases hp : parseInt64 s with
    | none => simp [hlt]
    | some code =>
        by_cases h0 : code = 0
        · subst h0
          simp [NewResponseError]
        · simp [NewResponseError, h0, hlt]
  · have hlt : status < 400 := not_le.mp hst
    simp [CheckErrorResponse, hst, hlt]

/-- Witness for C3: the spec's three success cases all return nil. -/
theorem c3_witness :
    CheckErrorResponse 200 "0" = none ∧
    CheckErrorResponse 500 "0" = none ∧
    CheckErrorResponse 199 "99999" = none :=
  ⟨(c3_nil_iff 200 "0").mpr (Or.inl (by decide)),
   (c3_nil_iff 500 "0").mpr (Or.inr (by decide)),
   (c3_nil_iff 199 "99999").mpr (Or.inl (by decide))⟩

/-- C6: every `ResponseError` produced by classifying a taxonomy code
supports both matching modes: it is structurally equal to a manually
constructed `ResponseError` carrying the same code, HTTP status and
sentinel, and unwrapping it yields exactly the sentinel, so sentinel-only
category matching succeeds while ignoring the numeric code and status. -/
theorem c6_dual_matching :
    ∀ (status code : Int) (sent : Sentinel) (s : String),
      400 ≤ status → (code, sent) ∈ specTaxonomy → parseInt64 s = some code →
      ∃ re : ResponseError,
        CheckErrorResponse status s = some re ∧
        re = ⟨code, status, GoErr.sentinel sent⟩ ∧
        re.Unwrap = GoErr.sentinel sent := by
  intro status code sent s hst hmem hparse
  exact ⟨⟨code, status, GoErr.sentinel sent⟩,
    checkErrorResponse_taxonomy status code sent s hst hmem hparse, rfl, rfl⟩

/-- Witness for C6 at status 418 and taxonomy code 10003 (IP not
whitelisted). -/
theorem c6_witness :
    ∃ re : ResponseError,
      CheckErrorResponse 418 "10003" = some re ∧
      re = ⟨10003, 418, GoErr.sentinel Sentinel.illegalIP⟩ ∧
      re.Unwrap = GoErr.sentinel Sentinel.illegalIP :=
  c6_dual_matching 418 10003 Sentinel.illegalIP "10003"
    (by decide) (by decide) (by decide)

/-- C7: for every HTTP status of at least 400 and every response code that
does not parse as a 64-bit integer, `CheckErrorResponse` returns a
`ResponseError` whose `HTTPStatusCode` is the input status, whose `Code` is
left at zero, and whose underlying error reads
`invalid response code: <raw value>` — a parse-failure variant distinct
from every sentinel of the numeric taxonomy. -/
theorem c7_parse_failure :
    ∀ (status : Int) (s : String), 400 ≤ status → parseInt64 s = none →
      CheckErrorResponse status s =
        some ⟨0, status, GoErr.message ("invalid response code: " ++ s)⟩ ∧
      ∀ sent : Sentinel,
        GoErr.message ("invalid response code: " ++ s) ≠ GoErr.sentinel sent := by
  intro status s hst hparse
  refine ⟨?_, fun sent h => by cases h⟩
  simp [CheckErrorResponse, hst, hparse]

/-- Witness for C7 at `CheckErrorResponse(418, "not-a-number")`. -/
theorem c7_witness :
    CheckErrorResponse 418 "not-a-number" =
      some ⟨0, 418, GoErr.message ("invalid response code: " ++ "not-a-number")⟩ ∧
    ∀ sent : Sentinel,
      GoErr.message ("invalid response code: " ++ "not-a-number") ≠
        GoErr.sentinel sent :=
  c7_parse_failure 418 "not-a-number" (by decide) (by decide)

/-- C8: a `PageSize` outside `[0, 200]` makes `GetOrderHistory` and
`GetOpenOrders` fail with an `InvalidParameterError` naming `req.PageSize`,
for every id and timestamp the external collaborators could supply (the
validation result does not depend on them, and the operation never reaches
signing or body assembly); a `PageSize` within `[0, 200]` passes validation
and the operation proceeds to an assembled request body. -/
theorem c8_page_size_validation :
    ∀ (hist : GetOrderHistoryRequest) (opn : GetOpenOrdersRequest)
      (id now : Int) (apiKey secretKey : String),
      (hist.PageSize < 0 →
        GetOrderHistory hist id now apiKey secretKey =
          Except.error (ClientError.invalidParameter
            ⟨"req.PageSize", "cannot be less than 0"⟩)) ∧
      (200 < hist.PageSize →
        GetOrderHistory hist id now apiKey secretKey =
          Except.error (ClientError.invalidParameter
            ⟨"req.PageSize", "cannot be greater than 200"⟩)) ∧
      (0 ≤ hist.PageSize → hist.PageSize ≤ 200 →
        ∃ body, GetOrderHistory hist id now apiKey secretKey = Except.ok body) ∧
      (opn.PageSize < 0 →
        GetOpenOrders opn id now apiKey secretKey =
          Except.error (ClientError.invalidParameter
            ⟨"req.PageSize", "cannot be less than 0"⟩)) ∧
      (200 < opn.PageSize →
        GetOpenOrders opn id now apiKey secretKey =
          Except.error (ClientError.invalidParameter
            ⟨"req.PageSize", "cannot be greater than 200"⟩)) ∧
      (0 ≤ opn.PageSize → opn.PageSize ≤ 200 →
        ∃ body, GetOpenOrders opn id now apiKey secretKey = Except.ok body) := by
  intro hist opn id now apiKey secretKey
  refine ⟨?_, ?_, ?_, ?_, ?_, ?_⟩
  · intro h
    simp [GetOrderHistory, h]
  · intro h
    have hn : ¬ hist.PageSize < 0 := by omega
    simp [GetOrderHistory, hn, h]
  · intro h1 h2
    have hn1 : ¬ hist.PageSize < 0 := by omega
    have hn2 : ¬ 200 < hist.PageSize := by omega
    unfold GetOrderHistory
    rw [if_neg hn1, if_neg hn2]
    exact ⟨_, rfl⟩
  · intro h
    simp [GetOpenOrders, h]
  · intro h
    have hn : ¬ opn.PageSize < 0 := by omega
    simp [GetOpenOrders, hn, h]
  · intro h1 h2
    have hn1 : ¬ opn.PageSize < 0 := by omega
    have hn2 : ¬ 200 < opn.PageSize := by omega
    unfold GetOpenOrders
    rw [if_neg hn1, if_neg hn2]
    exact ⟨_, rfl⟩

/-- Witness for C8: page size 201 is rejected, page size -1 is rejected,
and page size 0 passes validation. -/
theorem c8_witness :
    GetOrderHistory ⟨"BTC_USDT", ⟨0, true⟩, ⟨0, true⟩, 201, 0⟩ 1 2 "k" "s" =
      Except.error (ClientError.invalidParameter
        ⟨"req.PageSize", "cannot be greater than 200"⟩) ∧
    GetOpenOrders ⟨"BTC_USDT", -1, 0⟩ 1 2 "k" "s" =
      Except.error (ClientError.invalidParameter
        ⟨"req.PageSize", "cannot be less than 0"⟩) ∧
    ∃ body, GetOrderHistory ⟨"BTC_USDT", ⟨0, true⟩, ⟨0, true⟩, 0, 0⟩ 1 2 "k" "s" =
      Except.ok body :=
  ⟨(c8_page_size_validation ⟨"BTC_USDT", ⟨0, true⟩, ⟨0, true⟩, 201, 0⟩
      ⟨"BTC_USDT", -1, 0⟩ 1 2 "k" "s").2.1 (by decide),
   (c8_page_size_validation ⟨"BTC_USDT", ⟨0, true⟩, ⟨0, true⟩, 201, 0⟩
      ⟨"BTC_USDT", -1, 0⟩ 1 2 "k" "s").2.2.2.1 (by decide),
   (c8_page_size_validation ⟨"BTC_USDT", ⟨0, true⟩, ⟨0, true⟩, 0, 0⟩
      ⟨"BTC_USDT", -1, 0⟩ 1 2 "k" "s").2.2.1 (by decide) (by decide)⟩

/-- C10: the params maps signed and sent by `GetOrderHistory` and
`GetOpenOrders` always contain the key `page` with the caller's `Page`
value — even when `Page` is 0 — whereas `instrument_name` and `page_size`
(and `start_ts`/`end_ts` for order history) are present exactly when their
request fields are non-zero-valued. -/
theorem c10_page_always_sent :
    ∀ (hist : GetOrderHistoryRequest) (opn : GetOpenOrdersRequest),
      (List.lookup "page" (getOrderHistoryParams hist) = some (PValue.int hist.Page)) ∧
      (hist.InstrumentName = "" →
        List.lookup "instrument_name" (getOrderHistoryParams hist) = none) ∧
      (hist.InstrumentName ≠ "" →
        List.lookup "instrument_name" (getOrderHistoryParams hist) =
          some (PValue.str hist.InstrumentName)) ∧
      (hist.PageSize = 0 →
        List.lookup "page_size" (getOrderHistoryParams hist) = none) ∧
      (hist.PageSize ≠ 0 →
        List.lookup "page_size" (getOrderHistoryParams hist) =
          some (PValue.int hist.PageSize)) ∧
      (hist.Start.isZero = true →
        List.lookup "start_ts" (getOrderHistoryParams hist) = none) ∧
      (hist.Start.isZero = false →
        List.lookup "start_ts" (getOrderHistoryParams hist) =
          some (PValue.int hist.Start.unixMilli)) ∧
      (hist.End.isZero = true →
        List.lookup "end_ts" (getOrderHistoryParams hist) = none) ∧
      (hist.End.isZero = false →
        List.lookup "end_ts" (getOrderHistoryParams hist) =
          some (PValue.int hist.End.unixMilli)) ∧
      (List.lookup "page" (getOpenOrdersParams opn) = some (PValue.int opn.Page)) ∧
      (opn.InstrumentName = "" →
        List.lookup "instrument_name" (getOpenOrdersParams opn) = none) ∧
      (opn.InstrumentName ≠ "" →
        List.lookup "instrument_name" (getOpenOrdersParams opn) =
          some (PValue.str opn.InstrumentName)) ∧
      (opn.PageSize = 0 →
        List.lookup "page_size" (getOpenOrdersParams opn) = none) ∧
      (opn.PageSize ≠ 0 →
        List.lookup "page_size" (getOpenOrdersParams opn) =
          some (PValue.int opn.PageSize)) := by
  intro hist opn
  refine ⟨?_, ?_, ?_, ?_, ?_, ?_, ?_, ?_, ?_, ?_, ?_, ?_, ?_, ?_⟩
  · by_cases h1 : hist.InstrumentName = "" <;> by_cases h2 : hist.PageSize = 0 <;>
      by_cases h3 : hist.Start.isZero = true <;> by_cases h4 : hist.End.isZero = true <;>
      simp [getOrderHistoryParams, h1, h2, h3, h4, List.lookup, Bool.not_eq_true] at *
  · intro h
    by_cases h2 : hist.PageSize = 0 <;> by_cases h3 : hist.Start.isZero = true <;>
      by_cases h4 : hist.End.isZero = true <;>
      simp [getOrderHistoryParams, h, h2, h3, h4, List.lookup, Bool.not_eq_true] at *
  · intro h
    simp [getOrderHistoryParams, h, List.lookup]
  · intro h
    by_cases h1 : hist.InstrumentName = "" <;> by_cases h3 : hist.Start.isZero = true <;>
      by_cases h4 : hist.End.isZero = true <;>
      simp [getOrderHistoryParams, h, h1, h3, h4, List.lookup, Bool.not_eq_true] at *
  · intro h
    by_cases h1 : hist.InstrumentName = "" <;>
      simp [getOrderHistoryParams, h, h1, List.lookup]
  · intro h
    by_cases h1 : hist.InstrumentName = "" <;> by_cases h2 : hist.PageSize = 0 <;>
      by_cases h4 : hist.End.isZero = true <;>
      simp [getOrderHistoryParams, h, h1, h2, h4, List.lookup, Bool.not_eq_true] at *
  · intro h
    by_cases h1 : hist.InstrumentName = "" <;> by_cases h2 : hist.PageSize = 0 <;>
      simp [getOrderHistoryParams, h, h1, h2, List.lookup]
  · intro h
    by_cases h1 : hist.InstrumentName = "" <;> by_cases h2 : hist.PageSize = 0 <;>
      by_cases h3 : hist.Start.isZero = true <;>
      simp [getOrderHistoryParams, h, h1, h2, h3, List.lookup, Bool.not_eq_true] at *
  · intro h
    by_cases h1 : hist.InstrumentName = "" <;> by_cases h2 : hist.PageSize = 0 <;>
      by_cases h3 : hist.Start.isZero = true <;>
      simp [getOrderHistoryParams, h, h1, h2, h3, List.lookup, Bool.not_eq_true] at *
  · by_cases h1 : opn.InstrumentName = "" <;> by_cases h2 : opn.PageSize = 0 <;>
      simp [getOpenOrdersParams, h1, h2, List.lookup]
  · intro h
    by_cases h2 : opn.PageSize = 0 <;>
      simp [getOpenOrdersParams, h, h2, List.lookup]
  · intro h
    simp [getOpenOrdersParams, h, List.lookup]
  · intro h
    by_cases h1 : opn.InstrumentName = "" <;>
      simp [getOpenOrdersParams, h, h1, List.lookup]
  · intro h
    by_cases h1 : opn.InstrumentName = "" <;>
      simp [getOpenOrdersParams, h, h1, List.lookup]

/-- Witness for C10 at an all-zero-valued order-history request and an
open-orders request with an instrument set: page 0 is present, the
zero-valued optional fields are absent. -/
theorem c10_witness :
    List.lookup "page" (getOrderHistoryParams ⟨"", ⟨0, true⟩, ⟨0, true⟩, 0, 0⟩) =
      some (PValue.int 0) ∧
    List.lookup "page_size" (getOrderHistoryParams ⟨"", ⟨0, true⟩, ⟨0, true⟩, 0, 0⟩) =
      none ∧
    List.lookup "instrument_name" (getOpenOrdersParams ⟨"BTC_USDT", 20, 0⟩) =
      some (PValue.str "BTC_USDT") :=
  ⟨(c10_page_always_sent ⟨"", ⟨0, true⟩, ⟨0, true⟩, 0, 0⟩ ⟨"BTC_USDT", 20, 0⟩).1,
   (c10_page_always_sent ⟨"", ⟨0, true⟩, ⟨0, true⟩, 0, 0⟩ ⟨"BTC_USDT", 20, 0⟩).2.2.2.1 rfl,
   (c10_page_always_sent ⟨"", ⟨0, true⟩, ⟨0, true⟩, 0, 0⟩ ⟨"BTC_USDT", 20, 0⟩).2.2.2.2.2.2.2.2.2.2.2.1 (by decide)⟩

end CDCX
